import Mathlib

/-!
Shallow embedding of the transcription core of `src/backend/vosk_utils.py`
(the `get_model` / `get_recognizer` / `convert_audio_to_wav` /
`transcribe_audio` functions), together with theorems settling the frozen
claims about it.

Modelling conventions:
  * A Vosk `Model` handle is an opaque identifier (`Nat`).
  * The module-level `_model_cache` dict is threaded explicitly as an
    association list `Cache`.
  * The process environment (availability flags, filesystem presence of
    configured model directories, the decoding backend, and fault
    injection for the exception paths the Python code catches) is a
    record `Env` of parameters.
  * The Vosk recognizer is modelled as a deterministic function of the
    chunk prefix fed so far (`RecognizerModel`): `step` returns `some t`
    when `AcceptWaveform` reports an utterance boundary whose `Result()`
    text is `t`, and `finalTranscript` is the `FinalResult()` text after
    the whole stream.
  * A normalized audio file is its list of non-empty PCM chunk reads
    (the `wf.readframes` loop stops at the first empty read).
  * `convert_audio_to_wav` is modelled as atomic: it either creates the
    temporary WAV artifact and returns its contents, or fails creating
    nothing.  Whether the artifact was created, and whether it is still
    on disk when `transcribe_audio` returns, are tracked as booleans in
    the outcome.
-/

namespace VoskUtils

/-! ## Python string primitives used by the source

These are implemented by structural recursion over the character list so
that every definition evaluates inside the kernel. -/

/-- Strip whitespace from both ends of a character list. -/
def stripChars (l : List Char) : List Char :=
  ((l.dropWhile Char.isWhitespace).reverse.dropWhile Char.isWhitespace).reverse

/-- Python `str.strip()` (whitespace at both ends removed). -/
def pyStrip (s : String) : String := String.mk (stripChars s.data)

/-- Python `str.capitalize()`: first character uppercased, every
remaining character lowercased. -/
def pyCapitalize (s : String) : String :=
  match s.data with
  | [] => ""
  | c :: cs => String.mk (c.toUpper :: cs.map Char.toLower)

/-- Python `split('. ')` on a character list: scan left to right, cutting
at each non-overlapping occurrence of the two-character separator. -/
def splitDotSpace : List Char → List (List Char)
  | [] => [[]]
  | '.' :: ' ' :: rest => [] :: splitDotSpace rest
  | c :: rest =>
    match splitDotSpace rest with
    | [] => [[c]]
    | seg :: segs => (c :: seg) :: segs

/-- Python `s.split('. ')`. -/
def pySplitDotSpace (s : String) : List String :=
  (splitDotSpace s.data).map String.mk

/-- Python `sep.join(xs)`. -/
def pyJoin (sep : String) (xs : List String) : String :=
  String.mk (List.intercalate sep.data (xs.map String.data))

/-- Python `s.endswith('.')`. -/
def pyEndsWithDot (s : String) : Bool :=
  match s.data.getLast? with
  | some c => c == '.'
  | none => false

/-! ## Model registry (`MODEL_PATHS`, `_model_cache`, `get_model`,
`get_recognizer`) -/

/-- An opaque loaded Vosk model handle. -/
abbrev Model := Nat

/-- The `_model_cache` dict, threaded explicitly. -/
abbrev Cache := List (String × Model)

/-- Dict lookup in the cache (`lang in _model_cache` / `_model_cache[lang]`). -/
def cacheLookup (c : Cache) (lang : String) : Option Model :=
  match c with
  | [] => none
  | (k, m) :: rest => if k = lang then some m else cacheLookup rest lang

/-- The key set of the `MODEL_PATHS` configuration dict. -/
def MODEL_PATHS_keys : List String := ["en", "ru", "kz"]

/-- Process-level parameters of the Python module: availability flags,
filesystem state, model-construction results, and fault injection for the
exception paths the source catches. -/
structure Env where
  /-- `VOSK_AVAILABLE` -/
  voskAvailable : Bool
  /-- `PYDUB_AVAILABLE` -/
  pydubAvailable : Bool
  /-- whether `MODEL_PATHS[lang].exists()` holds at call time -/
  modelOnDisk : String → Bool
  /-- result of `Model(str(model_path))`: `none` models the constructor
  raising (caught by `get_model`'s `except`) -/
  loadModel : String → Option Model
  /-- whether `KaldiRecognizer(model, sample_rate)` succeeds -/
  recognizerOk : Bool
  /-- decoding result of `AudioSegment.from_file` + export for a given
  input path: the chunk list of the produced WAV, or `none` when decoding
  fails -/
  convert : String → Option (List String)
  /-- fault injected inside the `with wave.open` processing block
  (`none` = no exception, `some msg` = an exception with message `msg`) -/
  processFail : Option String

/-- `get_model(lang)` of `vosk_utils.py` (lines 40-61): `None` when Vosk
is unavailable; cache hit returned as-is; otherwise the configured path
must exist on disk, the model is constructed and inserted into the cache. -/
def get_model (env : Env) (cache : Cache) (lang : String) : Option Model × Cache :=
  if !env.voskAvailable then (none, cache)
  else
    match cacheLookup cache lang with
    | some m => (some m, cache)
    | none =>
      if lang ∈ MODEL_PATHS_keys ∧ env.modelOnDisk lang then
        match env.loadModel lang with
        | some m => (some m, (lang, m) :: cache)
        | none => (none, cache)
      else (none, cache)

/-- `get_recognizer(lang, sample_rate)` (lines 63-73): `None` when the
model is unavailable or `KaldiRecognizer` construction fails.  The
recognizer handle is identified with its model handle. -/
def get_recognizer (env : Env) (cache : Cache) (lang : String) : Option Model × Cache :=
  match get_model env cache lang with
  | (none, c) => (none, c)
  | (some m, c) => (if env.recognizerOk then some m else none, c)

/-! ## Audio conversion and the recognition loop -/

/-- `convert_audio_to_wav(file_path)` (lines 75-96): `None` when PyDub is
unavailable or decoding fails, otherwise the chunk contents of the
temporary WAV file it materializes. -/
def convert_audio_to_wav (env : Env) (filePath : String) : Option (List String) :=
  if !env.pydubAvailable then none
  else env.convert filePath

/-- Deterministic model of a Vosk recognizer's behaviour as a function of
the chunk prefix fed so far. -/
structure RecognizerModel where
  /-- after feeding this prefix, `some t` iff `AcceptWaveform` returned
  `True` and `Result()` carried text `t` -/
  step : List String → Option String
  /-- the text of `FinalResult()` after the whole stream was fed -/
  finalTranscript : List String → String

/-- The chunk-feeding `while` loop (lines 145-153): fragments from
mid-stream utterance boundaries, appended only when their stripped text is
non-empty.  `fed` is the prefix already consumed. -/
def feedLoop (r : RecognizerModel) : List String → List String → List String
  | _, [] => []
  | fed, c :: rest =>
    let fed' := fed ++ [c]
    match r.step fed' with
    | some t => (if pyStrip t ≠ "" then [t] else []) ++ feedLoop r fed' rest
    | none => feedLoop r fed' rest

/-- The full `result_text` accumulation (lines 139-158): the mid-stream
fragments followed by the `FinalResult` fragment when its stripped text is
non-empty. -/
def collectFragments (r : RecognizerModel) (chunks : List String) : List String :=
  let mids := feedLoop r [] chunks
  let fin := r.finalTranscript chunks
  mids ++ (if pyStrip fin ≠ "" then [fin] else [])

/-! ## Post-processing and the orchestrator -/

/-- The post-processing block of `transcribe_audio` (lines 176-185):
split on the literal `". "`, Python-capitalize each segment, rejoin, and
append a final `"."` when the non-empty result lacks one.  The empty
string is returned unchanged (the `if final_text:` guard). -/
def postProcess (raw : String) : String :=
  if raw = "" then raw
  else
    let sentences := pySplitDotSpace raw
    let capped := sentences.map pyCapitalize
    let joined := pyJoin ". " capped
    if pyEndsWithDot joined then joined else joined ++ "."

/-- The language-code map of `transcribe_audio` (lines 108-113). -/
def lang_map (language : String) : Option String :=
  if language = "en" then some "en"
  else if language = "ru" then some "ru"
  else if language = "kz" then some "kz"
  else if language = "auto" then some "en"
  else none

/-- `vosk_lang = lang_map.get(language, "en")` (line 115). -/
def vosk_lang_of (language : String) : String := (lang_map language).getD "en"

/-- The result dict of `transcribe_audio`.  `language`, `error` and
`confidence` are `Option`s because the source's failure dicts carry no
`language`/`confidence` key and its success dict carries no `error` key. -/
structure TranscriptionResult where
  success : Bool
  text : String
  language : Option String
  error : Option String
  confidence : Option ℚ
deriving DecidableEq

/-- Outcome of one `transcribe_audio` call: the returned dict, whether the
Audio Normalizer created a temporary WAV artifact during the call, whether
that artifact is still on disk when the call returns, and the cache after
the call. -/
structure TOutcome where
  result : TranscriptionResult
  tempCreated : Bool
  tempRemains : Bool
  cache : Cache

/-- `transcribe_audio(file_path, language)` (lines 98-202), following the
source's control flow branch by branch:
Vosk-unavailable early return; conversion failure; recognizer failure
(which returns **before** the `try/finally` that unlinks the temporary
WAV, so the artifact remains on disk); processing exception (caught, with
cleanup in `finally`); and the success path (cleanup in `finally`, join,
strip, post-process, fixed confidence `0.8`). -/
def transcribe_audio (env : Env) (cache : Cache) (r : RecognizerModel)
    (filePath : String) (language : String) : TOutcome :=
  if !env.voskAvailable then
    { result := { success := false, text := "", language := none,
                  error := some "Vosk speech recognition is not available",
                  confidence := none },
      tempCreated := false, tempRemains := false, cache := cache }
  else
    let voskLang := vosk_lang_of language
    match convert_audio_to_wav env filePath with
    | none =>
      { result := { success := false, text := "", language := none,
                    error := some "Failed to convert audio to WAV format",
                    confidence := none },
        tempCreated := false, tempRemains := false, cache := cache }
    | some chunks =>
      match get_recognizer env cache voskLang with
      | (none, cache') =>
        { result := { success := false, text := "", language := none,
                      error := some ("Failed to load speech recognition model for " ++ voskLang),
                      confidence := none },
          tempCreated := true, tempRemains := true, cache := cache' }
      | (some _, cache') =>
        match env.processFail with
        | some msg =>
          { result := { success := false, text := "", language := none,
                        error := some ("Audio processing failed: " ++ msg),
                        confidence := none },
            tempCreated := true, tempRemains := false, cache := cache' }
        | none =>
          let finalText := pyStrip (pyJoin " " (collectFragments r chunks))
          { result := { success := true, text := postProcess finalText,
                        language := some voskLang, error := none,
                        confidence := some ((4 : ℚ) / 5) },
            tempCreated := true, tempRemains := false, cache := cache' }

/-! ## Concrete instances used by witnesses and counterexamples -/

/-- A recognizer that never reports an utterance boundary and whose final
result is empty. -/
def rTriv : RecognizerModel :=
  { step := fun _ => none, finalTranscript := fun _ => "" }

/-- A recognizer that emits the fragment `"hi"` after the first chunk and
a whitespace-only final result. -/
def rEmit : RecognizerModel :=
  { step := fun fed => if fed.length = 1 then some "hi" else none,
    finalTranscript := fun _ => " " }

/-- A fully healthy environment: Vosk and PyDub available, every
configured model directory on disk, loading and recognizer construction
succeeding, decoding producing an empty chunk stream, no faults. -/
def envOk : Env :=
  { voskAvailable := true, pydubAvailable := true,
    modelOnDisk := fun _ => true, loadModel := fun _ => some 0,
    recognizerOk := true, convert := fun _ => some [], processFail := none }

/-- As `envOk` but no configured model directory exists on disk. -/
def envNoDisk : Env := { envOk with modelOnDisk := fun _ => false }

/-- As `envOk` but the `vosk` import failed (`VOSK_AVAILABLE = False`). -/
def envNoVosk : Env := { envOk with voskAvailable := false }

/-! ## Helper lemmas -/

/-- `transcribe_audio` depends on the requested language only through the
mapped `vosk_lang`. -/
theorem transcribe_congr_lang (env : Env) (cache : Cache) (r : RecognizerModel)
    (filePath : String) {l1 l2 : String} (h : vosk_lang_of l1 = vosk_lang_of l2) :
    transcribe_audio env cache r filePath l1 = transcribe_audio env cache r filePath l2 := by
  unfold transcribe_audio
  rw [h]

/-- The mapped language is always one of the three configured codes. -/
theorem vosk_lang_of_ne_auto (language : String) : vosk_lang_of language ≠ "auto" := by
  unfold vosk_lang_of lang_map
  repeat' split
  all_goals decide

/-! ## Claim C6 -/

/-- Claim C6: for every audio input, `transcribe_audio` with
`language = "auto"` resolves to the same fixed default code (`"en"`) as an
explicit `"en"` request, and the two calls produce the identical outcome
(in particular identical text) for identical audio input. -/
theorem C6_auto_equals_en (env : Env) (cache : Cache) (r : RecognizerModel)
    (filePath : String) :
    transcribe_audio env cache r filePath "auto" =
      transcribe_audio env cache r filePath "en" :=
  transcribe_congr_lang env cache r filePath rfl

/-! ## Claim C2 -/

/-- Stated from the claim's words: capitalize the first character of a
segment without changing its remaining characters. -/
def capitalizeFirstOnly (s : String) : String :=
  match s.data with
  | [] => ""
  | c :: cs => String.mk (c.toUpper :: cs)

/-- Stated from the claim's words: split on the literal `". "`, capitalize
the first character of each segment leaving the remaining characters
unchanged, rejoin with `". "`, and append a single `"."` when the
non-empty result does not already end with `"."`. -/
def postProcessClaimed (raw : String) : String :=
  if raw = "" then raw
  else
    let joined := pyJoin ". " ((pySplitDotSpace raw).map capitalizeFirstOnly)
    if pyEndsWithDot joined then joined else joined ++ "."

/-- Claim C2 counterexample: on `"hello WORLD"` the code lowercases the
tail of the segment (Python `str.capitalize`), so the output differs from
the claimed leave-the-rest-unchanged behaviour. -/
theorem C2_counterexample :
    postProcess "hello WORLD" = "Hello world." ∧
    postProcessClaimed "hello WORLD" = "Hello WORLD." ∧
    postProcess "hello WORLD" ≠ postProcessClaimed "hello WORLD" := by
  decide

/-- Stated from the amended claim's words: split on the literal `". "`,
uppercase the first character of each segment and lowercase its remaining
characters, rejoin with `". "`, and append a single `"."` when the
non-empty result does not already end with `"."`; empty input is returned
unchanged. -/
def postProcessAmended (raw : String) : String :=
  if raw = "" then raw
  else
    let joined := pyJoin ". " ((pySplitDotSpace raw).map
      (fun seg =>
        match seg.data with
        | [] => ""
        | c :: cs => String.mk (c.toUpper :: cs.map Char.toLower)))
    if pyEndsWithDot joined then joined else joined ++ "."

/-- Claim C2 (amended): `postProcess` splits on `". "`, capitalizes the
first character of each segment and lowercases the remaining characters
of the segment (Python `str.capitalize`), rejoins with `". "`, and
appends a single `"."` when the non-empty result does not already end
with `"."`; the spec's examples hold. -/
theorem C2_postProcess_amended :
    (∀ s : String, postProcess s = postProcessAmended s) ∧
    postProcess "hello world" = "Hello world." ∧
    postProcess "hello. world" = "Hello. World." ∧
    postProcess "" = "" := by
  refine ⟨fun s => ?_, by decide, by decide, by decide⟩
  unfold postProcess postProcessAmended pyCapitalize
  rfl

/-! ## Claim C5 -/

/-- Claim C5 counterexample: the failure result returned when Vosk is
unavailable carries no `language` key, so failure results do not have the
claimed uniform four-field shape. -/
theorem C5_counterexample :
    (transcribe_audio envNoVosk [] rTriv "f.mp3" "en").result.success = false ∧
    (transcribe_audio envNoVosk [] rTriv "f.mp3" "en").result.language = none :=
  ⟨rfl, rfl⟩

/-- Claim C5 (amended): every `transcribe_audio` result has `success` and
`text`, but a `language` key is present exactly on success results and an
`error` key exactly on failure results. -/
theorem C5_result_shape (env : Env) (cache : Cache) (r : RecognizerModel)
    (filePath : String) (language : String) :
    ((transcribe_audio env cache r filePath language).result.language).isSome
      = (transcribe_audio env cache r filePath language).result.success ∧
    ((transcribe_audio env cache r filePath language).result.error).isSome
      = !(transcribe_audio env cache r filePath language).result.success := by
  unfold transcribe_audio
  repeat' split
  all_goals
    try (rcases hg : get_recognizer env cache (vosk_lang_of language) with ⟨_ | m, c'⟩ <;>
      simp [hg])

/-! ## Claim C1 -/

/-- Claim C1 (code bug): when conversion succeeds but recognizer creation
fails afterwards (here: the resolved language's model directory is absent
from disk), `transcribe_audio` returns from a branch that precedes the
`try/finally` responsible for deleting the temporary WAV, so the artifact
created by the Audio Normalizer is still on disk when the call returns. -/
theorem C1_temp_wav_leaked :
    (transcribe_audio envNoDisk [] rTriv "f.mp3" "en").tempCreated = true ∧
    (transcribe_audio envNoDisk [] rTriv "f.mp3" "en").tempRemains = true ∧
    (transcribe_audio envNoDisk [] rTriv "f.mp3" "en").result.success = false :=
  ⟨rfl, rfl, rfl⟩

/-! ## Claim C3 -/

/-- Claim C3 counterexample: the code maps the out-of-set language code
`"fr"` to the default `"en"` and (with the English model available)
transcribes successfully under `"en"`, instead of returning a
model-not-found failure. -/
theorem C3_counterexample :
    (transcribe_audio envOk [] rTriv "f.mp3" "fr").result.success = true ∧
    (transcribe_audio envOk [] rTriv "f.mp3" "fr").result.language = some "en" :=
  ⟨rfl, rfl⟩

/-- Claim C3 (amended): a language code outside the enumerated set and
different from `"auto"` is silently mapped to the default `"en"`: the call
behaves exactly as an explicit `"en"` request (so it fails with a
model-load error only when the English model is unavailable). -/
theorem C3_unknown_lang_defaults_to_en (env : Env) (cache : Cache)
    (r : RecognizerModel) (filePath : String) (language : String)
    (h : lang_map language = none) :
    transcribe_audio env cache r filePath language =
      transcribe_audio env cache r filePath "en" := by
  apply transcribe_congr_lang
  unfold vosk_lang_of
  rw [h]
  rfl

/-- Witness for C3: the concrete out-of-set code `"fr"` satisfies the
hypothesis and the conclusion at a concrete environment. -/
theorem C3_unknown_lang_defaults_to_en_witness :
    lang_map "fr" = none ∧
    transcribe_audio envOk [] rTriv "f.mp3" "fr" =
      transcribe_audio envOk [] rTriv "f.mp3" "en" :=
  ⟨rfl, C3_unknown_lang_defaults_to_en envOk [] rTriv "f.mp3" "fr" rfl⟩

/-! ## Claim C4 -/

/-- Claim C4 counterexample: with the `"en"` model present in the cache
but its configured directory absent from disk, `get_model` returns the
cached model instead of failing — the cache check precedes the disk
check, so the failure is not independent of cache state. -/
theorem C4_counterexample :
    (get_model envNoDisk [("en", 7)] "en").1 = some 7 ∧
    (get_model envNoDisk [("en", 7)] "en").1 ≠ none := by
  decide

/-- Claim C4 (amended): `get_model` fails (returns no model) whenever the
requested language is not in the cache and its configured location does
not exist on disk; a cached language is served from the cache without any
disk check. -/
theorem C4_resolve_missing_disk (env : Env) (cache : Cache) (lang : String)
    (hmiss : cacheLookup cache lang = none)
    (hdisk : env.modelOnDisk lang = false) :
    (get_model env cache lang).1 = none := by
  unfold get_model
  split
  · rfl
  · rw [hmiss]
    rw [if_neg]
    simp [hdisk]

/-- Witness for C4: a concrete uncached language with its directory
missing from disk resolves to no model. -/
theorem C4_resolve_missing_disk_witness :
    cacheLookup [] "en" = none ∧ envNoDisk.modelOnDisk "en" = false ∧
    (get_model envNoDisk [] "en").1 = none :=
  ⟨rfl, rfl, C4_resolve_missing_disk envNoDisk [] "en" rfl rfl⟩

/-! ## Claim C7 -/

/-- Every fragment appended by the chunk-feeding loop has non-whitespace
content, for every starting prefix. -/
theorem feedLoop_mem (r : RecognizerModel) (chunks : List String) :
    ∀ (fed : List String) (t : String), t ∈ feedLoop r fed chunks → pyStrip t ≠ "" := by
  induction chunks with
  | nil => intro fed t h; simp [feedLoop] at h
  | cons c rest ih =>
    intro fed t h
    simp only [feedLoop] at h
    cases hs : r.step (fed ++ [c]) with
    | some u =>
      rw [hs] at h
      rcases List.mem_append.mp h with h1 | h2
      · by_cases hu : pyStrip u ≠ ""
        · rw [if_pos hu] at h1
          rw [List.mem_singleton.mp h1]
          exact hu
        · rw [if_neg hu] at h1
          cases h1
      · exact ih (fed ++ [c]) t h2
    | none =>
      rw [hs] at h
      exact ih (fed ++ [c]) t h

/-- Claim C7: the collected fragment list of a transcription contains only
fragments with non-whitespace content — empty or whitespace-only
fragments are suppressed both at mid-stream utterance boundaries and at
finalization. -/
theorem C7_fragments_nonblank (r : RecognizerModel) (chunks : List String)
    (t : String) (h : t ∈ collectFragments r chunks) : pyStrip t ≠ "" := by
  unfold collectFragments at h
  rcases List.mem_append.mp h with h1 | h2
  · exact feedLoop_mem r chunks [] t h1
  · by_cases hf : pyStrip (r.finalTranscript chunks) ≠ ""
    · rw [if_pos hf] at h2
      rw [List.mem_singleton.mp h2]
      exact hf
    · rw [if_neg hf] at h2
      cases h2

/-- Witness for C7: a recognizer emitting the fragment `"hi"` on the
first chunk yields a collected list containing `"hi"`, whose stripped
text is non-empty. -/
theorem C7_fragments_nonblank_witness :
    "hi" ∈ collectFragments rEmit ["c"] ∧ pyStrip "hi" ≠ "" :=
  ⟨by decide, C7_fragments_nonblank rEmit ["c"] "hi" (by decide)⟩

/-! ## Claim C8 -/

/-- Claim C8: when the converted stream has no chunks (the first read
returns zero bytes) and the recognizer's final result is whitespace-only,
`transcribe_audio` succeeds with empty text and no error; `postProcess`
adds no trailing period to the empty string. -/
theorem C8_empty_stream (env : Env) (cache : Cache) (r : RecognizerModel)
    (filePath : String) (language : String) (m : Model) (c' : Cache)
    (hvosk : env.voskAvailable = true)
    (hconv : convert_audio_to_wav env filePath = some [])
    (hrec : get_recognizer env cache (vosk_lang_of language) = (some m, c'))
    (hproc : env.processFail = none)
    (hfin : pyStrip (r.finalTranscript []) = "") :
    (transcribe_audio env cache r filePath language).result.success = true ∧
    (transcribe_audio env cache r filePath language).result.text = "" ∧
    (transcribe_audio env cache r filePath language).result.error = none ∧
    postProcess "" = "" := by
  have hcf : collectFragments r [] = [] := by
    simp [collectFragments, feedLoop, hfin]
  have hpp : pyStrip (pyJoin " " ([] : List String)) = "" := rfl
  have hpe : postProcess "" = "" := rfl
  simp only [transcribe_audio]
  rw [hvosk, hconv, hrec, hproc]
  simp [hcf, hpp, hpe]

/-- Witness for C8: the healthy environment with an empty decoded stream
and the trivial recognizer satisfies every hypothesis. -/
theorem C8_empty_stream_witness :
    envOk.voskAvailable = true ∧
    convert_audio_to_wav envOk "f.mp3" = some [] ∧
    get_recognizer envOk [] (vosk_lang_of "en") = (some 0, [("en", 0)]) ∧
    envOk.processFail = none ∧
    pyStrip (rTriv.finalTranscript []) = "" ∧
    ((transcribe_audio envOk [] rTriv "f.mp3" "en").result.success = true ∧
     (transcribe_audio envOk [] rTriv "f.mp3" "en").result.text = "" ∧
     (transcribe_audio envOk [] rTriv "f.mp3" "en").result.error = none ∧
     postProcess "" = "") :=
  ⟨rfl, rfl, rfl, rfl, rfl,
   C8_empty_stream envOk [] rTriv "f.mp3" "en" 0 [("en", 0)] rfl rfl rfl rfl rfl⟩

/-! ## Claim C10 -/

/-- Claim C10: every successful `transcribe_audio` result carries the
resolved concrete language code (the mapped `vosk_lang`, `"en"` for an
`"auto"` request), never the literal sentinel `"auto"`, together with the
fixed confidence constant `0.8`. -/
theorem C10_success_language_confidence (env : Env) (cache : Cache)
    (r : RecognizerModel) (filePath : String) (language : String)
    (h : (transcribe_audio env cache r filePath language).result.success = true) :
    (transcribe_audio env cache r filePath language).result.language
        = some (vosk_lang_of language) ∧
    (transcribe_audio env cache r filePath language).result.language ≠ some "auto" ∧
    (transcribe_audio env cache r filePath language).result.confidence
        = some ((4 : ℚ) / 5) := by
  revert h
  unfold transcribe_audio
  repeat' split
  all_goals
    try (rcases hg : get_recognizer env cache (vosk_lang_of language) with ⟨_ | m, c'⟩ <;>
      simp [hg])
  all_goals
    intro hc
    exact absurd hc (vosk_lang_of_ne_auto language)

/-- Witness for C10: a successful concrete call carries language `"en"`
and confidence `0.8`. -/
theorem C10_success_language_confidence_witness :
    (transcribe_audio envOk [] rTriv "f.mp3" "auto").result.success = true ∧
    ((transcribe_audio envOk [] rTriv "f.mp3" "auto").result.language
        = some (vosk_lang_of "auto") ∧
     (transcribe_audio envOk [] rTriv "f.mp3" "auto").result.language ≠ some "auto" ∧
     (transcribe_audio envOk [] rTriv "f.mp3" "auto").result.confidence
        = some ((4 : ℚ) / 5)) :=
  ⟨rfl, C10_success_language_confidence envOk [] rTriv "f.mp3" "auto" rfl⟩

/-! ## Claim C9

Interleaving model of two concurrent `get_model` calls sharing the
module-level `_model_cache`.  Each caller runs the uncached-load path of
`get_model` (Vosk available, language configured and on disk, model
construction succeeding) in two atomic steps exactly mirroring the
source: the cache check of line 46, then the construct-and-insert of
lines 56-57.  The source takes no lock between the two steps.  Loads
yield distinct fresh handles and are counted. -/

/-- One caller of `get_model`: position 0 = about to run the cache check;
position 1 = past a missed check, about to construct and insert the
model; position 2 = returned, holding its result. -/
structure RegThread where
  pos : Nat
  res : Option Model
deriving DecidableEq

/-- State shared by the concurrent callers: the `_model_cache`, a supply
of fresh model handles, and the number of `Model(...)` constructions
performed so far. -/
structure RegWorld where
  cache : Cache
  nextId : Model
  loads : Nat
deriving DecidableEq

/-- One atomic step of a caller running `get_model lang`. -/
def regStep (lang : String) (w : RegWorld) (t : RegThread) : RegWorld × RegThread :=
  match t.pos with
  | 0 =>
    match cacheLookup w.cache lang with
    | some m => (w, { pos := 2, res := some m })
    | none => (w, { pos := 1, res := none })
  | 1 =>
    ({ cache := (lang, w.nextId) :: w.cache, nextId := w.nextId + 1,
       loads := w.loads + 1 },
     { pos := 2, res := some w.nextId })
  | _ => (w, t)

/-- Run two callers under a schedule: `true` steps caller 1, `false`
steps caller 2. -/
def runSched (lang : String) :
    List Bool → RegWorld × RegThread × RegThread → RegWorld × RegThread × RegThread
  | [], s => s
  | pick :: rest, (w, t1, t2) =>
    if pick then
      let (w', t1') := regStep lang w t1
      runSched lang rest (w', t1', t2)
    else
      let (w', t2') := regStep lang w t2
      runSched lang rest (w', t1, t2')

/-- Initial state: empty cache, no loads, both callers about to run the
cache check for a never-before-loaded language. -/
def regInit : RegWorld × RegThread × RegThread :=
  ({ cache := [], nextId := 0, loads := 0 },
   { pos := 0, res := none }, { pos := 0, res := none })

/-- Claim C9 counterexample: under the interleaving check-check-load-load
(possible because `get_model` takes no lock between its cache check and
its load-and-insert), two model loads occur for the same uncached
language and the two callers end up holding different model handles. -/
theorem C9_counterexample :
    (runSched "en" [true, false, true, false] regInit).1.loads = 2 ∧
    (runSched "en" [true, false, true, false] regInit).2.1.res = some 0 ∧
    (runSched "en" [true, false, true, false] regInit).2.2.res = some 1 ∧
    (runSched "en" [true, false, true, false] regInit).2.1.res ≠
      (runSched "en" [true, false, true, false] regInit).2.2.res := by
  decide

/-- Claim C9 (amended): `get_model` has no per-language serialization
point, so at-most-one-load only holds when the two calls do not
interleave: under a serialized schedule the first caller loads once, the
second hits the cache, and both receive the same handle. -/
theorem C9_serialized_single_load :
    (runSched "en" [true, true, false, false] regInit).1.loads = 1 ∧
    (runSched "en" [true, true, false, false] regInit).2.1.res = some 0 ∧
    (runSched "en" [true, true, false, false] regInit).2.2.res = some 0 ∧
    (runSched "en" [true, true, false, false] regInit).2.1.res =
      (runSched "en" [true, true, false, false] regInit).2.2.res := by
  decide

end VoskUtils
